import Mathlib

/-!
Verification development for the animation-library repository: a shallow
embedding of the `useAnimation` hook family (configuration resolution,
directional class derivation, the effect/timer/listener driver, and replay)
together with theorems settling the specification claims.

The repository carries several revisions of the hook. We embed:
* the class-based driver of `src/hooks/useAnimation.ts` (the revision with a
  deferred activation timer, transition-based rotate, and a replay that
  strips classes), called the "V2" driver below, and
* the mount-aware revision (the one with `animateOnMount` and
  `isInitialRenderRef`), called the "Mount" driver below.
-/

namespace AnimationLib

/-- A JavaScript number as far as this code observes it: either NaN or a
real value (modelled as a rational). -/
inductive JSNum where
  | nan : JSNum
  | num : ℚ → JSNum
  deriving DecidableEq, Repr

namespace JSNum

/-- JS `isNaN`. -/
def isNaNb : JSNum → Bool
  | .nan => true
  | .num _ => false

/-- JS `Math.min` on two arguments: NaN propagates. -/
def jsMin : JSNum → JSNum → JSNum
  | .nan, _ => .nan
  | _, .nan => .nan
  | .num a, .num b => .num (min a b)

/-- JS `Math.max` on two arguments: NaN propagates. -/
def jsMax : JSNum → JSNum → JSNum
  | .nan, _ => .nan
  | _, .nan => .nan
  | .num a, .num b => .num (max a b)

end JSNum

/-- `type AnimationType = "fade" | "slide" | "scale" | "rotate" | "bounce"`. -/
inductive AnimationType where
  | fade | slide | scale | rotate | bounce
  deriving DecidableEq, Repr

/-- `type SlideAxis = "x" | "y"`. -/
inductive SlideAxis where
  | x | y
  deriving DecidableEq, Repr

/-- The runtime shape of the `degrees` field:
`degrees?: number | { start?: number; end: number }` (the code additionally
tolerates a missing `end` at runtime, so we model it as optional). -/
inductive Degrees where
  | num : ℚ → Degrees
  | pair : Option ℚ → Option ℚ → Degrees
  deriving DecidableEq, Repr

/-- The `opacity?: { start?: number; end?: number }` field. -/
structure OpacityRange where
  start : Option JSNum := none
  endValue : Option JSNum := none
  deriving DecidableEq, Repr

/-- `AnimationConfig` as the hook receives it; optional fields are `Option`
(`none` = `undefined`).  `hasOnComplete` records whether the caller supplied
an `onAnimationComplete` callback (second hook argument). -/
structure AnimationConfig where
  type : AnimationType
  duration : Option JSNum := none
  delay : Option JSNum := none
  easing : Option String := none
  distance : Option ℚ := none
  degrees : Option Degrees := none
  scale : Option ℚ := none
  opacity : Option OpacityRange := none
  axis : Option SlideAxis := none
  animateOnMount : Bool := false
  hasOnComplete : Bool := false
  deriving DecidableEq, Repr

/-- The `DEFAULTS` table of the hook. -/
def DEFAULTS_duration : ℚ := 1/2
def DEFAULTS_delay : ℚ := 0
def DEFAULTS_easing : String := "ease-out"
def DEFAULTS_opacityStart : ℚ := 0
def DEFAULTS_opacityEnd : ℚ := 1
def DEFAULTS_distance : ℚ := 50
def DEFAULTS_degrees : ℚ := 360
def DEFAULTS_degreesStart : ℚ := 0
def DEFAULTS_scale : ℚ := 4/5
def DEFAULTS_axis : SlideAxis := .x

/-- `validateTime` (shared by both embedded revisions):
`const numValue = typeof value === "number" ? value : NaN;
 if (!isNaN(numValue) && numValue >= 0) return numValue;
 return defaultValue;` -/
def validateTime (value : Option JSNum) (defaultValue : ℚ) : ℚ :=
  match value with
  | some (.num q) => if 0 ≤ q then q else defaultValue
  | some .nan => defaultValue
  | none => defaultValue

/-- `validateOpacity` of the V2 driver:
`const numValue = typeof value === "number" ? value : defaultValue;
 return Math.max(0, Math.min(1, numValue));`
Note NaN survives the `typeof` test (`typeof NaN === "number"`) and then
propagates through `Math.min`/`Math.max`, so the result can be NaN. -/
def validateOpacity (value : Option JSNum) (defaultValue : ℚ) : JSNum :=
  let numValue : JSNum := match value with
    | some v => v
    | none => .num defaultValue
  JSNum.jsMax (.num 0) (JSNum.jsMin (.num 1) numValue)

/-- `validateOpacity` of the Mount driver:
`const numValue = typeof value === "number" ? value : NaN;
 if (!isNaN(numValue) && numValue >= 0 && numValue <= 1) return numValue;
 return defaultValue;` -/
def validateOpacityMount (value : Option JSNum) (defaultValue : ℚ) : JSNum :=
  match value with
  | some (.num q) => if 0 ≤ q ∧ q ≤ 1 then .num q else .num defaultValue
  | some .nan => .num defaultValue
  | none => .num defaultValue

/-- Resolution of `easing`: `configEasing || DEFAULTS.easing` (the empty
string is falsy in JS and also falls back). -/
def resolveEasing (e : Option String) : String :=
  match e with
  | none => DEFAULTS_easing
  | some s => if s = "" then DEFAULTS_easing else s

/-- The fully resolved parameters the effect body closes over, computed by the
destructuring/validation header of the hook. `degrees` is kept raw because the
effect bodies inspect `configDegrees` directly. -/
structure ResolvedConfig where
  type : AnimationType
  duration : ℚ
  delay : ℚ
  easing : String
  distance : ℚ
  degrees : Option Degrees
  scale : ℚ
  opacityStart : JSNum
  opacityEnd : JSNum
  axis : SlideAxis
  animateOnMount : Bool
  hasOnComplete : Bool
  deriving DecidableEq, Repr

/-- The resolution header of the V2 driver (duration/delay via `validateTime`,
easing via `||`, distance/scale via `??`, opacity via the clamping
`validateOpacity`). -/
def resolve (cfg : AnimationConfig) : ResolvedConfig where
  type := cfg.type
  duration := validateTime cfg.duration DEFAULTS_duration
  delay := validateTime cfg.delay DEFAULTS_delay
  easing := resolveEasing cfg.easing
  distance := cfg.distance.getD DEFAULTS_distance
  degrees := cfg.degrees
  scale := cfg.scale.getD DEFAULTS_scale
  opacityStart := validateOpacity (cfg.opacity.bind (·.start)) DEFAULTS_opacityStart
  opacityEnd := validateOpacity (cfg.opacity.bind (·.endValue)) DEFAULTS_opacityEnd
  axis := cfg.axis.getD DEFAULTS_axis
  animateOnMount := cfg.animateOnMount
  hasOnComplete := cfg.hasOnComplete

/-- The resolution header of the Mount driver (identical except that it uses
its own `validateOpacity`). -/
def resolveMount (cfg : AnimationConfig) : ResolvedConfig where
  type := cfg.type
  duration := validateTime cfg.duration DEFAULTS_duration
  delay := validateTime cfg.delay DEFAULTS_delay
  easing := resolveEasing cfg.easing
  distance := cfg.distance.getD DEFAULTS_distance
  degrees := cfg.degrees
  scale := cfg.scale.getD DEFAULTS_scale
  opacityStart := validateOpacityMount (cfg.opacity.bind (·.start)) DEFAULTS_opacityStart
  opacityEnd := validateOpacityMount (cfg.opacity.bind (·.endValue)) DEFAULTS_opacityEnd
  axis := cfg.axis.getD DEFAULTS_axis
  animateOnMount := cfg.animateOnMount
  hasOnComplete := cfg.hasOnComplete

/-- Decimal digit character. -/
def digitChar (n : ℕ) : Char := Char.ofNat (48 + n)

/-- Render a natural number in decimal (fuel-driven helper). -/
def natToStrAux : ℕ → ℕ → String
  | 0, _ => ""
  | fuel + 1, n =>
    if n < 10 then String.singleton (digitChar n)
    else natToStrAux fuel (n / 10) ++ String.singleton (digitChar (n % 10))

/-- Render a natural number in decimal. -/
def natToStr (n : ℕ) : String := natToStrAux (n + 1) n

/-- Fractional decimal digits of `r / d` (with `r < d`), up to the given fuel
(JS prints only finitely many digits; every value this code interpolates is a
terminating decimal). -/
def fracDigits : ℕ → ℕ → ℕ → String
  | 0, _, _ => ""
  | fuel + 1, r, d =>
    if r = 0 then ""
    else natToStr (r * 10 / d) ++ fracDigits fuel (r * 10 % d) d

/-- Decimal rendering of a nonnegative rational given as numerator and
denominator in lowest terms. -/
def ratToStringNonneg (n d : ℕ) : String :=
  if d = 1 then natToStr n
  else natToStr (n / d) ++ "." ++ fracDigits 30 (n % d) d

/-- JS number-to-string (template-literal interpolation) for the real values
this code interpolates: sign, integer part, then the terminating decimal
expansion of the fractional part. -/
def ratToString (q : ℚ) : String :=
  if q.num < 0 then "-" ++ ratToStringNonneg (-q.num).toNat q.den
  else ratToStringNonneg q.num.toNat q.den

/-- Interpolation of a possibly-NaN JS number. -/
def jsNumToString : JSNum → String
  | .nan => "NaN"
  | .num q => ratToString q

/-- JS `Math.abs` on a real value. -/
def jsAbs (q : ℚ) : ℚ := |q|

/-- Does the second character list start with the first? (structural version
of a string head test, so that concrete instances reduce in the kernel). -/
def listHeadMatches : List Char → List Char → Bool
  | [], _ => true
  | _ :: _, [] => false
  | p :: ps, c :: cs => p == c && listHeadMatches ps cs

/-- `s.startsWith pat` on strings. -/
def strStartsWith (s pat : String) : Bool := listHeadMatches pat.data s.data

/-- `cls.startsWith("animate-")`, the test both drivers use to find animation
classes to strip. -/
def isAnimateClass (cls : String) : Bool := strStartsWith cls "animate-"

/-- The slice of a DOM element the hook reads and writes: its class list, its
custom style properties, the inline `animation` / `transition` / `transform`
styles, and (for the Mount driver's rotate branch) the rotation parsed out of
the computed transform, `some r` iff `getComputedStyle(node).transform`
contains a parseable `rotate(<r>deg)`. -/
structure Element where
  classList : List String := []
  styleProps : List (String × String) := []
  styleAnimation : String := ""
  styleTransition : String := ""
  styleTransform : String := ""
  computedRotation : Option ℚ := none
  deriving DecidableEq, Repr

/-- A fresh element as the framework mounts it. -/
def emptyElement : Element := {}

/-- `element.style.setProperty(k, v)`: overwrite the first (and only) binding
of the key if one is present, otherwise append it. -/
def setProperty : List (String × String) → String → String →
    List (String × String)
  | [], k, v => [(k, v)]
  | p :: ps, k, v => if p.1 = k then (k, v) :: ps else p :: setProperty ps k v

/-- `element.style.getPropertyValue(k)`, as far as the claims read it back. -/
def getProperty : List (String × String) → String → Option String
  | [], _ => none
  | p :: ps, k => if p.1 = k then some p.2 else getProperty ps k

/-- `classList.add c`: a DOMTokenList never stores duplicates. -/
def classAdd (cs : List String) (c : String) : List String :=
  if c ∈ cs then cs else cs ++ [c]

/-- `Array.from(node.classList).filter(cls => cls.startsWith("animate-"))
.forEach(cls => node.classList.remove(cls))`: keep only the classes without
the animate marker. -/
def removeAnimateClasses (cs : List String) : List String :=
  cs.filter (fun c => !(isAnimateClass c))

/-- Number of classes carrying the animate marker. -/
def countAnimate (cs : List String) : ℕ :=
  cs.countP (fun c => isAnimateClass c)

/-- The `"x"` / `"y"` string of an axis. -/
def axisStr : SlideAxis → String
  | .x => "x"
  | .y => "y"

/-- The `${type}` string of an animation kind. -/
def typeName : AnimationType → String
  | .fade => "fade"
  | .slide => "slide"
  | .scale => "scale"
  | .rotate => "rotate"
  | .bounce => "bounce"

/-- The class-based derivation both drivers use for fade/slide/scale/bounce:
`let animationClass = animate-type;` overridden for slide
(`animate-type-axis-suffix`) and bounce (`animate-type-suffix`) with
`directionSuffix = distance >= 0 ? "positive" : "negative"`. -/
def classBasedAnimationClass (cfg : ResolvedConfig) : String :=
  match cfg.type with
  | .slide =>
      "animate-" ++ typeName cfg.type ++ "-" ++ axisStr cfg.axis ++ "-" ++
        (if 0 ≤ cfg.distance then "positive" else "negative")
  | .bounce =>
      "animate-" ++ typeName cfg.type ++ "-" ++
        (if 0 ≤ cfg.distance then "positive" else "negative")
  | t => "animate-" ++ typeName t

/-- The V2 driver's rotate end angle:
`let endDeg = DEFAULTS.degreesStart; if number → configDegrees;
 else if (configDegrees && typeof configDegrees.end === "number") → .end`. -/
def rotateEndDegV2 (d : Option Degrees) : ℚ :=
  match d with
  | some (.num n) => n
  | some (.pair _ e) => e.getD DEFAULTS_degreesStart
  | none => DEFAULTS_degreesStart

/-- The Mount driver's rotate start angle:
`degreesStart = configDegrees.start ?? DEFAULTS.degreesStart` for the pair
form, otherwise the default. -/
def rotateStartDegMount (d : Option Degrees) : ℚ :=
  match d with
  | some (.pair s _) => s.getD DEFAULTS_degreesStart
  | _ => DEFAULTS_degreesStart

/-- The Mount driver's rotate end angle:
`degreesEnd = DEFAULTS.degrees`, number form overrides it, pair form uses
`.end ?? .start ?? DEFAULTS.degrees`. -/
def rotateEndDegMount (d : Option Degrees) : ℚ :=
  match d with
  | some (.num n) => n
  | some (.pair s e) => e.getD (s.getD DEFAULTS_degrees)
  | none => DEFAULTS_degrees

/-- A scheduled activation step: the `setTimeout` callback closes over the
bind cycle it belongs to, the class it will add, and whether a completion
callback was supplied. -/
structure TimerTask where
  cycle : ℕ
  animClass : String
  notifyOnComplete : Bool
  deriving DecidableEq, Repr

/-- The mutable state of one hook instance: the bound element (the ref),
the replay `key`, a counter of effect runs (bind cycles) used to tag deferred
work, the pending activation timer, the attached completion listener (tagged
with its owning cycle), the record of completion callbacks that have fired
(by owning cycle), and the Mount driver's `isInitialRenderRef`. -/
structure DriverState where
  element : Option Element := none
  key : ℕ := 0
  cycle : ℕ := 0
  pendingTimer : Option TimerTask := none
  listener : Option ℕ := none
  fired : List ℕ := []
  isInitialRender : Bool := true
  deriving DecidableEq, Repr

/-- The state of a freshly rendered hook instance: `useState(0)`,
`useRef(null)`, `useRef(true)`, nothing scheduled. -/
def initialState : DriverState := {}

/-- The framework writing the ref: mount (`some el`) or unmount (`none`). -/
def attachElement (el : Option Element) (s : DriverState) : DriverState :=
  { s with element := el }

/-- The timing custom properties every class-based branch sets:
`--animation-duration`, `--animation-delay`, `--animation-easing`. -/
def setTimingProps (cfg : ResolvedConfig) (props : List (String × String)) :
    List (String × String) :=
  let props := setProperty props "--animation-duration" (ratToString cfg.duration ++ "s")
  let props := setProperty props "--animation-delay" (ratToString cfg.delay ++ "s")
  setProperty props "--animation-easing" cfg.easing

/-- The `--opacity-start` / `--opacity-end` pair. -/
def setOpacityProps (cfg : ResolvedConfig) (props : List (String × String)) :
    List (String × String) :=
  let props := setProperty props "--opacity-start" (jsNumToString cfg.opacityStart)
  setProperty props "--opacity-end" (jsNumToString cfg.opacityEnd)

/-- The kind-specific custom properties of the V2 driver's class-based branch:
fade sets opacity; slide sets `--distance` from `Math.abs(distance)` plus
opacity; scale sets `--scale` plus opacity; bounce sets `--distance` from the
signed `distance` plus opacity. -/
def setKindPropsV2 (cfg : ResolvedConfig) (props : List (String × String)) :
    List (String × String) :=
  match cfg.type with
  | .fade => setOpacityProps cfg props
  | .slide =>
      let props := setProperty props "--distance" (ratToString (jsAbs cfg.distance) ++ "px")
      setOpacityProps cfg props
  | .scale =>
      let props := setProperty props "--scale" (ratToString cfg.scale)
      setOpacityProps cfg props
  | .bounce =>
      let props := setProperty props "--distance" (ratToString cfg.distance ++ "px")
      setOpacityProps cfg props
  | .rotate => props

/-- The V2 driver's effect body. In source order: read the ref (early return
when null); reset inline transition and transform; strip every `animate-`
class; detach previous completion listeners; clear the pending activation
timer; then either (rotate) write an inline transition to the end angle and
attach a `transitionend` listener when a callback was supplied, or
(class-based) derive the directional class, write the timing and
kind-specific custom properties, force reflow and schedule the activation
step. Every run with a live element starts a new bind cycle. -/
def useAnimationEffect (cfg : ResolvedConfig) (s : DriverState) : DriverState :=
  match s.element with
  | none => s
  | some node =>
    let c := s.cycle + 1
    let node := { node with styleTransition := "", styleTransform := "" }
    let node := { node with classList := removeAnimateClasses node.classList }
    if cfg.type = .rotate then
      let endDeg := rotateEndDegV2 cfg.degrees
      let node := { node with
        styleTransition :=
          "transform " ++ ratToString cfg.duration ++ "s " ++ cfg.easing ++
            " " ++ ratToString cfg.delay ++ "s",
        styleTransform := "rotate(" ++ ratToString endDeg ++ "deg)" }
      { s with
        element := some node, cycle := c, pendingTimer := none,
        listener := if cfg.hasOnComplete then some c else none }
    else
      let animationClass := classBasedAnimationClass cfg
      let node := { node with styleProps := setTimingProps cfg node.styleProps }
      let node := { node with styleProps := setKindPropsV2 cfg node.styleProps }
      { s with
        element := some node, cycle := c, listener := none,
        pendingTimer := some ⟨c, animationClass, cfg.hasOnComplete⟩ }

/-- The scheduled activation step firing. The callback re-reads the ref; if an
element is live it neutralizes the inline `animation` override, forces reflow,
restores it, adds the class computed at bind time, and attaches the
`animationend` listener when a callback was supplied. Firing consumes the
timer either way. -/
def timerFire (s : DriverState) : DriverState :=
  match s.pendingTimer with
  | none => s
  | some t =>
    match s.element with
    | none => { s with pendingTimer := none }
    | some node =>
      let node := { node with styleAnimation := "" }
      let node := { node with classList := classAdd node.classList t.animClass }
      { s with
        element := some node, pendingTimer := none,
        listener := if t.notifyOnComplete then some t.cycle else s.listener }

/-- An `animationend`/`transitionend` event arriving. `targetIsBound` is the
`event.target === elementRef.current` guard of `handleAnimationEndEvent`;
when it holds and a listener is attached, the completion callback of the
listener's owning cycle fires and the listener removes itself. -/
def animationEndEvent (targetIsBound : Bool) (s : DriverState) : DriverState :=
  match s.listener with
  | none => s
  | some n =>
      if targetIsBound then { s with listener := none, fired := s.fired ++ [n] }
      else s

/-- The effect cleanup (run before every effect re-run and on unmount):
`clearTimeout` on the pending timer and `removeEventListener` for both
completion events. -/
def cleanupEffect (s : DriverState) : DriverState :=
  { s with pendingTimer := none, listener := none }

/-- `replay()`: when an element is live, temporarily disable animations
(`style.animation = "none"`), strip every `animate-` class, force reflow, and
restore `style.animation = ""`; in every case advance the key by one. -/
def replay (s : DriverState) : DriverState :=
  match s.element with
  | none => { s with key := s.key + 1 }
  | some node =>
    let node := { node with styleAnimation := "none" }
    let node := { node with classList := removeAnimateClasses node.classList }
    let node := { node with styleAnimation := "" }
    { s with element := some node, key := s.key + 1 }

/-- The Mount driver's effect body. Differences from the V2 driver: the
inline transform is not reset (FIX 1); rotate is keyframe-based again, with
the start angle taken from the element's parsed computed rotation when one is
readable and from `degreesStart` otherwise (FIX 2), writing
`--degrees-start`/`--degrees-end` and deriving
`animate-rotate-{positive|negative}` from `degreesEnd < currentRotation`; and
the very first run with a live element skips the animation entirely when
`animateOnMount` is falsy (FIX 3/FIX 4) — for rotate it writes the end
transform directly, for the class-based kinds it returns after the custom
properties are written but before the activation step is scheduled. -/
def useAnimationEffectMount (cfg : ResolvedConfig) (s : DriverState) :
    DriverState :=
  match s.element with
  | none => s
  | some node =>
    let c := s.cycle + 1
    let node := { node with styleTransition := "" }
    let node := { node with classList := removeAnimateClasses node.classList }
    if cfg.type = .rotate then
      let degreesStart := rotateStartDegMount cfg.degrees
      let degreesEnd := rotateEndDegMount cfg.degrees
      let currentRotation := (node.computedRotation).getD degreesStart
      if s.isInitialRender ∧ ¬cfg.animateOnMount then
        let node := { node with
          styleTransform := "rotate(" ++ ratToString degreesEnd ++ "deg)" }
        { s with
          element := some node, cycle := c, pendingTimer := none,
          listener := none, isInitialRender := false }
      else
        let node := { node with styleProps := (setProperty node.styleProps
          "--degrees-start" (ratToString currentRotation ++ "deg")) }
        let node := { node with styleProps := (setProperty node.styleProps
          "--degrees-end" (ratToString degreesEnd ++ "deg")) }
        let animationClass :=
          if degreesEnd < currentRotation then "animate-rotate-negative"
          else "animate-rotate-positive"
        let node := { node with styleProps := setTimingProps cfg node.styleProps }
        { s with
          element := some node, cycle := c, listener := none,
          pendingTimer := some ⟨c, animationClass, cfg.hasOnComplete⟩,
          isInitialRender := false }
    else
      let animationClass := classBasedAnimationClass cfg
      let node := { node with styleProps := setTimingProps cfg node.styleProps }
      let node := { node with styleProps := setKindPropsV2 cfg node.styleProps }
      if s.isInitialRender ∧ ¬cfg.animateOnMount then
        { s with
          element := some node, cycle := c, pendingTimer := none,
          listener := none, isInitialRender := false }
      else
        { s with
          element := some node, cycle := c, listener := none,
          pendingTimer := some ⟨c, animationClass, cfg.hasOnComplete⟩,
          isInitialRender := false }

/-- One observable event of a hook instance's lifetime: an effect run of
either driver revision, a timer firing, a completion event, an effect
cleanup, a replay call, or the framework rewriting the ref. -/
inductive DriverStep : DriverState → DriverState → Prop where
  | effect (cfg : ResolvedConfig) (s : DriverState) :
      DriverStep s (useAnimationEffect cfg s)
  | effectMount (cfg : ResolvedConfig) (s : DriverState) :
      DriverStep s (useAnimationEffectMount cfg s)
  | fire (s : DriverState) : DriverStep s (timerFire s)
  | animEnd (b : Bool) (s : DriverState) :
      DriverStep s (animationEndEvent b s)
  | cleanup (s : DriverState) : DriverStep s (cleanupEffect s)
  | replayStep (s : DriverState) : DriverStep s (replay s)
  | attach (el : Option Element) (s : DriverState) :
      DriverStep s (attachElement el s)

/-- States a hook instance can be in: reachable from the fresh render by the
events above. -/
def Reachable (s : DriverState) : Prop :=
  Relation.ReflTransGen DriverStep initialState s

/-- Modelled from the spec: the directional-class table of section 4.2
(`fade → animate-fade`, `slide → animate-slide-{axis}-{positive|negative}`
by sign of distance, `scale → animate-scale`,
`bounce → animate-bounce-{positive|negative}` by sign of distance,
`rotate → animate-rotate-{positive|negative}` by sign of
`end − effectiveStart`), with the nonnegative sign mapped to `positive`. -/
def specDirectionalClass (cfg : ResolvedConfig) : String :=
  match cfg.type with
  | .fade => "animate-fade"
  | .scale => "animate-scale"
  | .slide =>
      "animate-slide-" ++ axisStr cfg.axis ++ "-" ++
        (if 0 ≤ cfg.distance then "positive" else "negative")
  | .bounce =>
      "animate-bounce-" ++ (if 0 ≤ cfg.distance then "positive" else "negative")
  | .rotate =>
      "animate-rotate-" ++
        (if 0 ≤ rotateEndDegMount cfg.degrees - rotateStartDegMount cfg.degrees
         then "positive" else "negative")

/-- The bookkeeping invariant of the driver: any pending activation task and
any attached completion listener belong to the latest bind cycle, so deferred
work of a superseded cycle can never be the work that fires. -/
def CycleInv (s : DriverState) : Prop :=
  (∀ t, s.pendingTimer = some t → t.cycle = s.cycle) ∧
  (∀ n, s.listener = some n → n = s.cycle)

/-! Concrete instances used when evaluating the theorems on closed inputs. -/

/-- A driver state with a freshly mounted element. -/
def exMounted : DriverState := { initialState with element := some emptyElement }

/-- A driver state with a mounted element past its initial render. -/
def exSettledMount : DriverState :=
  { initialState with element := some emptyElement, isInitialRender := false }

/-- A resolved fade configuration. -/
def exFade : ResolvedConfig := resolve { type := .fade }

/-- The resolved configuration of the slide scenario
`{kind: slide, distance: -100, axis: "x"}`. -/
def exSlideNeg : ResolvedConfig :=
  resolve { type := .slide, distance := some (-100), axis := some .x }

/-- The resolved configuration of the rotate scenario
`{kind: rotate, rotation: {start: 45, end: 225}}` under the Mount driver. -/
def exRotatePair : ResolvedConfig :=
  resolveMount { type := .rotate, degrees := some (.pair (some 45) (some 225)) }

/-- A resolved rotate configuration under the V2 driver. -/
def exRotateV2 : ResolvedConfig := resolve { type := .rotate }

/-- The resolved Mount-driver rotate configuration with `animateOnMount`
unset (falsy), parameterized by its `degrees` field. -/
def mountRotateCfg (d : Option Degrees) : ResolvedConfig :=
  resolveMount { type := .rotate, degrees := d, animateOnMount := false }

/-- The degrees pair of the rotate scenario. -/
def exPair45to225 : Option Degrees := some (.pair (some 45) (some 225))

/-! Helper lemmas about the element model. -/

lemma countAnimate_removeAnimateClasses (cs : List String) :
    countAnimate (removeAnimateClasses cs) = 0 := by
  induction cs with
  | nil => rfl
  | cons c cs _ =>
    cases h : isAnimateClass c <;>
      simp [removeAnimateClasses, countAnimate, List.filter_cons, h,
        List.countP_cons]

lemma countAnimate_eq_zero_iff (cs : List String) :
    countAnimate cs = 0 ↔ ∀ c ∈ cs, isAnimateClass c = false := by
  simp [countAnimate, List.countP_eq_zero]

lemma countAnimate_classAdd (cs : List String) (c : String)
    (h0 : countAnimate cs = 0) (hc : isAnimateClass c = true) :
    countAnimate (classAdd cs c) = 1 := by
  unfold classAdd
  split
  · rename_i hmem
    have := (countAnimate_eq_zero_iff cs).mp h0 c hmem
    rw [this] at hc; cases hc
  · have h0' := (countAnimate_eq_zero_iff cs).mp h0
    simp [countAnimate, List.countP_append, List.countP_cons, hc,
      List.countP_eq_zero.mpr (by simpa using h0')]

lemma mem_classAdd (cs : List String) (c : String) : c ∈ classAdd cs c := by
  unfold classAdd
  split
  · assumption
  · simp

lemma isAnimateClass_classBased (cfg : ResolvedConfig) :
    isAnimateClass (classBasedAnimationClass cfg) = true := by
  obtain ⟨t, _, _, _, dist, _, _, _, _, ax, _, _⟩ := cfg
  cases t <;> cases ax <;>
    simp only [classBasedAnimationClass] <;>
    first
      | decide
      | (split <;> decide)

/-! Helper lemmas about custom-property assignment. -/

lemma getProperty_setProperty_same (props : List (String × String))
    (k v : String) : getProperty (setProperty props k v) k = some v := by
  induction props with
  | nil => simp [setProperty, getProperty]
  | cons p ps ih =>
    by_cases h : p.1 = k <;> simp [setProperty, getProperty, h, ih]

lemma getProperty_setProperty_other (props : List (String × String))
    (k k' v : String) (hkk : k' ≠ k) :
    getProperty (setProperty props k' v) k = getProperty props k := by
  induction props with
  | nil => simp [setProperty, getProperty, hkk]
  | cons p ps ih =>
    by_cases h : p.1 = k' <;>
      by_cases h2 : p.1 = k <;>
        simp_all [setProperty, getProperty]

/-! Shape lemmas for the driver operations. -/

lemma useAnimationEffect_classBased (cfg : ResolvedConfig) (s : DriverState)
    (node : Element) (hel : s.element = some node) (ht : cfg.type ≠ .rotate) :
    useAnimationEffect cfg s =
      { s with
        element := some { node with
          styleTransition := "", styleTransform := "",
          classList := removeAnimateClasses node.classList,
          styleProps := setKindPropsV2 cfg (setTimingProps cfg node.styleProps) },
        cycle := s.cycle + 1, listener := none,
        pendingTimer :=
          some ⟨s.cycle + 1, classBasedAnimationClass cfg, cfg.hasOnComplete⟩ } := by
  simp only [useAnimationEffect, hel, if_neg ht]

lemma timerFire_some (s : DriverState) (t : TimerTask) (node : Element)
    (hp : s.pendingTimer = some t) (hel : s.element = some node) :
    timerFire s =
      { s with
        element := some { node with
          styleAnimation := "",
          classList := classAdd node.classList t.animClass },
        pendingTimer := none,
        listener := if t.notifyOnComplete then some t.cycle else s.listener } := by
  simp only [timerFire, hp, hel]

/-- Binding a class-based configuration and letting its activation timer fire
leaves exactly one `animate-` class on the element, namely the derived one,
with the custom properties written at bind time intact. -/
lemma bindFire_one_class (cfg : ResolvedConfig) (s : DriverState)
    (node : Element) (hel : s.element = some node) (ht : cfg.type ≠ .rotate) :
    ∃ node1, (timerFire (useAnimationEffect cfg s)).element = some node1 ∧
      (timerFire (useAnimationEffect cfg s)).pendingTimer = none ∧
      countAnimate node1.classList = 1 ∧
      classBasedAnimationClass cfg ∈ node1.classList ∧
      node1.styleProps = setKindPropsV2 cfg (setTimingProps cfg node.styleProps) := by
  rw [useAnimationEffect_classBased cfg s node hel ht]
  rw [timerFire_some _ ⟨s.cycle + 1, classBasedAnimationClass cfg, cfg.hasOnComplete⟩
    _ rfl rfl]
  refine ⟨_, rfl, rfl, ?_, ?_, rfl⟩
  · exact countAnimate_classAdd _ _ (countAnimate_removeAnimateClasses _)
      (isAnimateClass_classBased cfg)
  · exact mem_classAdd _ _

lemma useAnimationEffect_none (cfg : ResolvedConfig) (s : DriverState)
    (hel : s.element = none) : useAnimationEffect cfg s = s := by
  simp only [useAnimationEffect, hel]

lemma useAnimationEffect_rotate (cfg : ResolvedConfig) (s : DriverState)
    (node : Element) (hel : s.element = some node) (ht : cfg.type = .rotate) :
    useAnimationEffect cfg s =
      { s with
        element := some { node with
          classList := removeAnimateClasses node.classList,
          styleTransition :=
            "transform " ++ ratToString cfg.duration ++ "s " ++ cfg.easing ++
              " " ++ ratToString cfg.delay ++ "s",
          styleTransform :=
            "rotate(" ++ ratToString (rotateEndDegV2 cfg.degrees) ++ "deg)" },
        cycle := s.cycle + 1, pendingTimer := none,
        listener := if cfg.hasOnComplete then some (s.cycle + 1) else none } := by
  simp only [useAnimationEffect, hel, if_pos ht]

lemma useAnimationEffectMount_none (cfg : ResolvedConfig) (s : DriverState)
    (hel : s.element = none) : useAnimationEffectMount cfg s = s := by
  simp only [useAnimationEffectMount, hel]

lemma useAnimationEffectMount_rotate_skip (cfg : ResolvedConfig)
    (s : DriverState) (node : Element) (hel : s.element = some node)
    (ht : cfg.type = .rotate)
    (hskip : s.isInitialRender = true ∧ cfg.animateOnMount = false) :
    useAnimationEffectMount cfg s =
      { s with
        element := some { node with
          styleTransition := "",
          classList := removeAnimateClasses node.classList,
          styleTransform :=
            "rotate(" ++ ratToString (rotateEndDegMount cfg.degrees) ++ "deg)" },
        cycle := s.cycle + 1, pendingTimer := none, listener := none,
        isInitialRender := false } := by
  simp only [useAnimationEffectMount, hel, if_pos ht]
  rw [if_pos (by simp [hskip.1, hskip.2])]

lemma useAnimationEffectMount_rotate_animate (cfg : ResolvedConfig)
    (s : DriverState) (node : Element) (hel : s.element = some node)
    (ht : cfg.type = .rotate)
    (hgo : ¬(s.isInitialRender = true ∧ cfg.animateOnMount = false)) :
    useAnimationEffectMount cfg s =
      { s with
        element := some { node with
          styleTransition := "",
          classList := removeAnimateClasses node.classList,
          styleProps := setTimingProps cfg
            (setProperty
              (setProperty node.styleProps "--degrees-start"
                (ratToString
                  ((node.computedRotation).getD (rotateStartDegMount cfg.degrees))
                  ++ "deg"))
              "--degrees-end"
              (ratToString (rotateEndDegMount cfg.degrees) ++ "deg")) },
        cycle := s.cycle + 1, listener := none,
        pendingTimer := some
          ⟨s.cycle + 1,
            (if rotateEndDegMount cfg.degrees <
                (node.computedRotation).getD (rotateStartDegMount cfg.degrees)
             then "animate-rotate-negative" else "animate-rotate-positive"),
            cfg.hasOnComplete⟩,
        isInitialRender := false } := by
  simp only [useAnimationEffectMount, hel, if_pos ht]
  rw [if_neg (by simpa using hgo)]

lemma useAnimationEffectMount_classBased_skip (cfg : ResolvedConfig)
    (s : DriverState) (node : Element) (hel : s.element = some node)
    (ht : cfg.type ≠ .rotate)
    (hskip : s.isInitialRender = true ∧ cfg.animateOnMount = false) :
    useAnimationEffectMount cfg s =
      { s with
        element := some { node with
          styleTransition := "",
          classList := removeAnimateClasses node.classList,
          styleProps := setKindPropsV2 cfg (setTimingProps cfg node.styleProps) },
        cycle := s.cycle + 1, pendingTimer := none, listener := none,
        isInitialRender := false } := by
  simp only [useAnimationEffectMount, hel, if_neg ht]
  rw [if_pos (by simp [hskip.1, hskip.2])]

lemma useAnimationEffectMount_classBased_animate (cfg : ResolvedConfig)
    (s : DriverState) (node : Element) (hel : s.element = some node)
    (ht : cfg.type ≠ .rotate)
    (hgo : ¬(s.isInitialRender = true ∧ cfg.animateOnMount = false)) :
    useAnimationEffectMount cfg s =
      { s with
        element := some { node with
          styleTransition := "",
          classList := removeAnimateClasses node.classList,
          styleProps := setKindPropsV2 cfg (setTimingProps cfg node.styleProps) },
        cycle := s.cycle + 1, listener := none,
        pendingTimer :=
          some ⟨s.cycle + 1, classBasedAnimationClass cfg, cfg.hasOnComplete⟩,
        isInitialRender := false } := by
  simp only [useAnimationEffectMount, hel, if_neg ht]
  rw [if_neg (by simpa using hgo)]

lemma timerFire_none (s : DriverState) (hp : s.pendingTimer = none) :
    timerFire s = s := by
  simp only [timerFire, hp]

lemma timerFire_no_element (s : DriverState) (t : TimerTask)
    (hp : s.pendingTimer = some t) (hel : s.element = none) :
    timerFire s = { s with pendingTimer := none } := by
  simp only [timerFire, hp, hel]

lemma replay_none (s : DriverState) (hel : s.element = none) :
    replay s = { s with key := s.key + 1 } := by
  simp only [replay, hel]

lemma replay_some (s : DriverState) (node : Element)
    (hel : s.element = some node) :
    replay s =
      { s with
        element := some { node with
          styleAnimation := "",
          classList := removeAnimateClasses node.classList },
        key := s.key + 1 } := by
  simp only [replay, hel]

/-! Per-operation bookkeeping lemmas. -/

lemma useAnimationEffect_key (cfg : ResolvedConfig) (s : DriverState) :
    (useAnimationEffect cfg s).key = s.key := by
  cases hel : s.element with
  | none => rw [useAnimationEffect_none cfg s hel]
  | some node =>
    by_cases ht : cfg.type = .rotate
    · rw [useAnimationEffect_rotate cfg s node hel ht]
    · rw [useAnimationEffect_classBased cfg s node hel ht]

lemma useAnimationEffectMount_key (cfg : ResolvedConfig) (s : DriverState) :
    (useAnimationEffectMount cfg s).key = s.key := by
  cases hel : s.element with
  | none => rw [useAnimationEffectMount_none cfg s hel]
  | some node =>
    by_cases ht : cfg.type = .rotate <;>
      by_cases hskip : s.isInitialRender = true ∧ cfg.animateOnMount = false
    · rw [useAnimationEffectMount_rotate_skip cfg s node hel ht hskip]
    · rw [useAnimationEffectMount_rotate_animate cfg s node hel ht hskip]
    · rw [useAnimationEffectMount_classBased_skip cfg s node hel ht hskip]
    · rw [useAnimationEffectMount_classBased_animate cfg s node hel ht hskip]

lemma timerFire_key (s : DriverState) : (timerFire s).key = s.key := by
  cases hp : s.pendingTimer with
  | none => rw [timerFire_none s hp]
  | some t =>
    cases hel : s.element with
    | none => rw [timerFire_no_element s t hp hel]
    | some node => rw [timerFire_some s t node hp hel]

lemma animationEndEvent_key (b : Bool) (s : DriverState) :
    (animationEndEvent b s).key = s.key := by
  unfold animationEndEvent
  cases s.listener
  · rfl
  · dsimp; split <;> rfl

lemma replay_key (s : DriverState) : (replay s).key = s.key + 1 := by
  cases hel : s.element with
  | none => rw [replay_none s hel]
  | some node => rw [replay_some s node hel]

lemma step_key (s s' : DriverState) (h : DriverStep s s') :
    s'.key = s.key ∨ s'.key = s.key + 1 := by
  cases h with
  | effect cfg s => exact Or.inl (useAnimationEffect_key cfg s)
  | effectMount cfg s => exact Or.inl (useAnimationEffectMount_key cfg s)
  | fire s => exact Or.inl (timerFire_key s)
  | animEnd b s => exact Or.inl (animationEndEvent_key b s)
  | cleanup s => exact Or.inl rfl
  | replayStep s => exact Or.inr (replay_key s)
  | attach el s => exact Or.inl rfl

/-! Preservation of the cycle-ownership invariant. -/

lemma cycleInv_initial : CycleInv initialState :=
  ⟨fun t hx => by simp [initialState] at hx,
   fun n hx => by simp [initialState] at hx⟩

lemma cycleInv_useAnimationEffect (cfg : ResolvedConfig) (s : DriverState)
    (h : CycleInv s) : CycleInv (useAnimationEffect cfg s) := by
  cases hel : s.element with
  | none => rw [useAnimationEffect_none cfg s hel]; exact h
  | some node =>
    by_cases ht : cfg.type = .rotate
    · rw [useAnimationEffect_rotate cfg s node hel ht]
      refine ⟨fun t hx => by simp at hx, fun n hx => ?_⟩
      by_cases hc : cfg.hasOnComplete = true
      all_goals simp [hc] at hx ⊢
      all_goals omega
    · rw [useAnimationEffect_classBased cfg s node hel ht]
      refine ⟨fun t hx => ?_, fun n hx => by simp at hx⟩
      simp at hx; rw [← hx]

lemma cycleInv_useAnimationEffectMount (cfg : ResolvedConfig)
    (s : DriverState) (h : CycleInv s) :
    CycleInv (useAnimationEffectMount cfg s) := by
  cases hel : s.element with
  | none => rw [useAnimationEffectMount_none cfg s hel]; exact h
  | some node =>
    by_cases ht : cfg.type = .rotate <;>
      by_cases hskip : s.isInitialRender = true ∧ cfg.animateOnMount = false
    · rw [useAnimationEffectMount_rotate_skip cfg s node hel ht hskip]
      exact ⟨fun t hx => by simp at hx, fun n hx => by simp at hx⟩
    · rw [useAnimationEffectMount_rotate_animate cfg s node hel ht hskip]
      refine ⟨fun t hx => ?_, fun n hx => by simp at hx⟩
      simp at hx; rw [← hx]
    · rw [useAnimationEffectMount_classBased_skip cfg s node hel ht hskip]
      exact ⟨fun t hx => by simp at hx, fun n hx => by simp at hx⟩
    · rw [useAnimationEffectMount_classBased_animate cfg s node hel ht hskip]
      refine ⟨fun t hx => ?_, fun n hx => by simp at hx⟩
      simp at hx; rw [← hx]

lemma cycleInv_timerFire (s : DriverState) (h : CycleInv s) :
    CycleInv (timerFire s) := by
  cases hp : s.pendingTimer with
  | none => rw [timerFire_none s hp]; exact h
  | some t =>
    cases hel : s.element with
    | none =>
      rw [timerFire_no_element s t hp hel]
      exact ⟨fun t' hx => by simp at hx, h.2⟩
    | some node =>
      rw [timerFire_some s t node hp hel]
      refine ⟨fun t' hx => by simp at hx, fun n hx => ?_⟩
      by_cases hc : t.notifyOnComplete = true
      · simp [hc] at hx
        rw [← hx]; exact h.1 t hp
      · simp [hc] at hx
        exact h.2 n hx

lemma cycleInv_animationEndEvent (b : Bool) (s : DriverState)
    (h : CycleInv s) : CycleInv (animationEndEvent b s) := by
  unfold animationEndEvent
  cases hl : s.listener with
  | none => exact h
  | some n =>
    dsimp
    split
    · exact ⟨fun t hx => h.1 t hx, fun n' hx => by simp at hx⟩
    · exact h

lemma cycleInv_cleanupEffect (s : DriverState) (_h : CycleInv s) :
    CycleInv (cleanupEffect s) :=
  ⟨fun t hx => by simp [cleanupEffect] at hx, fun n hx => by simp [cleanupEffect] at hx⟩

lemma cycleInv_replay (s : DriverState) (h : CycleInv s) :
    CycleInv (replay s) := by
  cases hel : s.element with
  | none => rw [replay_none s hel]; exact h
  | some node => rw [replay_some s node hel]; exact h

lemma cycleInv_step (s s' : DriverState) (hstep : DriverStep s s')
    (h : CycleInv s) : CycleInv s' := by
  cases hstep with
  | effect cfg s => exact cycleInv_useAnimationEffect cfg s h
  | effectMount cfg s => exact cycleInv_useAnimationEffectMount cfg s h
  | fire s => exact cycleInv_timerFire s h
  | animEnd b s => exact cycleInv_animationEndEvent b s h
  | cleanup s => exact cycleInv_cleanupEffect s h
  | replayStep s => exact cycleInv_replay s h
  | attach el s => exact h

lemma cycleInv_reachable (s : DriverState) (h : Reachable s) : CycleInv s := by
  induction h with
  | refl => exact cycleInv_initial
  | tail _ hstep ih => exact cycleInv_step _ _ hstep ih

lemma fired_step (s s' : DriverState) (hstep : DriverStep s s')
    (h : CycleInv s) : ∀ n ∈ s'.fired, n ∈ s.fired ∨ n = s.cycle := by
  cases hstep with
  | effect cfg s =>
    intro n hn; left
    cases hel : s.element with
    | none => rwa [useAnimationEffect_none cfg s hel] at hn
    | some node =>
      by_cases ht : cfg.type = .rotate
      · rwa [useAnimationEffect_rotate cfg s node hel ht] at hn
      · rwa [useAnimationEffect_classBased cfg s node hel ht] at hn
  | effectMount cfg s =>
    intro n hn; left
    cases hel : s.element with
    | none => rwa [useAnimationEffectMount_none cfg s hel] at hn
    | some node =>
      by_cases ht : cfg.type = .rotate <;>
        by_cases hskip : s.isInitialRender = true ∧ cfg.animateOnMount = false
      · rwa [useAnimationEffectMount_rotate_skip cfg s node hel ht hskip] at hn
      · rwa [useAnimationEffectMount_rotate_animate cfg s node hel ht hskip] at hn
      · rwa [useAnimationEffectMount_classBased_skip cfg s node hel ht hskip] at hn
      · rwa [useAnimationEffectMount_classBased_animate cfg s node hel ht hskip] at hn
  | fire s =>
    intro n hn; left
    cases hp : s.pendingTimer with
    | none => rwa [timerFire_none s hp] at hn
    | some t =>
      cases hel : s.element with
      | none => rwa [timerFire_no_element s t hp hel] at hn
      | some node => rwa [timerFire_some s t node hp hel] at hn
  | animEnd b s =>
    intro n hn
    unfold animationEndEvent at hn
    cases hl : s.listener with
    | none => rw [hl] at hn; exact Or.inl hn
    | some m =>
      rw [hl] at hn; dsimp at hn
      by_cases hb : b = true
      · simp [hb] at hn
        rcases hn with hn | hn
        · exact Or.inl hn
        · right; rw [hn]; exact h.2 m hl
      · simp [hb] at hn
        exact Or.inl (by simpa using hn)
  | cleanup s => intro n hn; exact Or.inl hn
  | replayStep s =>
    intro n hn; left
    cases hel : s.element with
    | none => rwa [replay_none s hel] at hn
    | some node => rwa [replay_some s node hel] at hn
  | attach el s => intro n hn; exact Or.inl hn

/-- Binding a rotate configuration under the Mount driver (in an animating
render) and letting the activation timer fire adds exactly the directional
class the branch derives, and leaves the degree/timing properties written at
bind time on the element. -/
lemma mountRotate_bindFire (cfg : ResolvedConfig) (s : DriverState)
    (node : Element) (hel : s.element = some node) (ht : cfg.type = .rotate)
    (hgo : ¬(s.isInitialRender = true ∧ cfg.animateOnMount = false)) :
    ∃ node1, (timerFire (useAnimationEffectMount cfg s)).element = some node1 ∧
      (timerFire (useAnimationEffectMount cfg s)).pendingTimer = none ∧
      (if rotateEndDegMount cfg.degrees <
          (node.computedRotation).getD (rotateStartDegMount cfg.degrees)
        then "animate-rotate-negative" else "animate-rotate-positive")
        ∈ node1.classList ∧
      countAnimate node1.classList = 1 ∧
      node1.styleProps = setTimingProps cfg
        (setProperty
          (setProperty node.styleProps "--degrees-start"
            (ratToString
              ((node.computedRotation).getD (rotateStartDegMount cfg.degrees))
              ++ "deg"))
          "--degrees-end" (ratToString (rotateEndDegMount cfg.degrees) ++ "deg")) := by
  rw [useAnimationEffectMount_rotate_animate cfg s node hel ht hgo]
  rw [timerFire_some _ _ _ rfl rfl]
  refine ⟨_, rfl, rfl, mem_classAdd _ _, ?_, rfl⟩
  exact countAnimate_classAdd _ _ (countAnimate_removeAnimateClasses _)
    (by split <;> rfl)

/-! The claim theorems. -/

/-- C2: for the configuration `{kind: rotate, rotation: {start: 45, end:
225}}`, a (non-initial-render) bind under the Mount driver derives the
directional class `animate-rotate-positive` (225 − 45 > 0) and sets the
custom properties `--degrees-start` to "45deg" and `--degrees-end` to
"225deg" on the element. -/
theorem c2_rotate_pair_scenario (s : DriverState) (node : Element)
    (hel : s.element = some node) (hrot : node.computedRotation = none)
    (hinit : s.isInitialRender = false) :
    ∃ node1,
      (timerFire (useAnimationEffectMount exRotatePair s)).element
        = some node1 ∧
      "animate-rotate-positive" ∈ node1.classList ∧
      countAnimate node1.classList = 1 ∧
      getProperty node1.styleProps "--degrees-start" = some "45deg" ∧
      getProperty node1.styleProps "--degrees-end" = some "225deg" := by
  obtain ⟨node1, h1, _, h3, h4, h5⟩ :=
    mountRotate_bindFire exRotatePair s node hel (by decide)
      (by simp [hinit])
  rw [hrot, Option.getD_none] at h3 h5
  rw [if_neg (by decide :
    ¬ rotateEndDegMount exRotatePair.degrees <
        rotateStartDegMount exRotatePair.degrees)] at h3
  refine ⟨node1, h1, h3, h4, ?_, ?_⟩
  · rw [h5]
    unfold setTimingProps
    rw [getProperty_setProperty_other _ _ _ _ (by decide),
        getProperty_setProperty_other _ _ _ _ (by decide),
        getProperty_setProperty_other _ _ _ _ (by decide),
        getProperty_setProperty_other _ _ _ _ (by decide),
        getProperty_setProperty_same]
    decide
  · rw [h5]
    unfold setTimingProps
    rw [getProperty_setProperty_other _ _ _ _ (by decide),
        getProperty_setProperty_other _ _ _ _ (by decide),
        getProperty_setProperty_other _ _ _ _ (by decide),
        getProperty_setProperty_same]
    decide

/-- C2 witness: the rotate scenario evaluated on a freshly mounted element
past its initial render. -/
theorem c2_rotate_pair_scenario_witness :
    (exSettledMount.element = some emptyElement ∧
      emptyElement.computedRotation = none ∧
      exSettledMount.isInitialRender = false) ∧
    (∃ node1,
      (timerFire (useAnimationEffectMount exRotatePair exSettledMount)).element
        = some node1 ∧
      "animate-rotate-positive" ∈ node1.classList ∧
      countAnimate node1.classList = 1 ∧
      getProperty node1.styleProps "--degrees-start" = some "45deg" ∧
      getProperty node1.styleProps "--degrees-end" = some "225deg") :=
  ⟨⟨rfl, rfl, rfl⟩,
    c2_rotate_pair_scenario exSettledMount emptyElement rfl rfl rfl⟩

/-- C1, counterexample: a settled successful bind of a valid rotate
configuration under the V2 driver leaves ZERO classes with the `animate-`
marker on the element (rotate is transition-based there and never adds a
class), refuting "never zero after a successful bind". The bind is settled:
no activation task is pending. -/
theorem c1_counterexample :
    (useAnimationEffect exRotateV2 exMounted).pendingTimer = none ∧
    ((useAnimationEffect exRotateV2 exMounted).element.map
      (fun n => countAnimate n.classList)) = some 0 := by decide

/-- C1 (amended): after any settled bind of a valid non-rotate configuration
(fade, slide, scale, bounce) the element carries exactly one class with the
`animate-` marker, and binding the same resolved configuration twice in
succession still leaves exactly one such class, with no duplicate; rotate
binds under the V2 driver are transition-based and leave zero such classes. -/
theorem c1_settled_bind_exactly_one_class (cfg : ResolvedConfig)
    (s : DriverState) (node : Element) (hel : s.element = some node)
    (ht : cfg.type ≠ AnimationType.rotate) :
    (∃ node1, (timerFire (useAnimationEffect cfg s)).element = some node1 ∧
      (timerFire (useAnimationEffect cfg s)).pendingTimer = none ∧
      countAnimate node1.classList = 1) ∧
    (∃ node2,
      (timerFire (useAnimationEffect cfg (useAnimationEffect cfg s))).element
        = some node2 ∧
      (timerFire (useAnimationEffect cfg (useAnimationEffect cfg s))).pendingTimer
        = none ∧
      countAnimate node2.classList = 1) := by
  constructor
  · obtain ⟨n1, h1, h2, h3, _, _⟩ := bindFire_one_class cfg s node hel ht
    exact ⟨n1, h1, h2, h3⟩
  · obtain ⟨n2, h1, h2, h3, _, _⟩ :=
      bindFire_one_class cfg (useAnimationEffect cfg s) _
        (by rw [useAnimationEffect_classBased cfg s node hel ht]) ht
    exact ⟨n2, h1, h2, h3⟩

/-- C1 witness: the amended theorem evaluated at a fade bind on a freshly
mounted element. -/
theorem c1_settled_bind_exactly_one_class_witness :
    (exMounted.element = some emptyElement ∧
      exFade.type ≠ AnimationType.rotate) ∧
    ((∃ node1, (timerFire (useAnimationEffect exFade exMounted)).element
        = some node1 ∧
      (timerFire (useAnimationEffect exFade exMounted)).pendingTimer = none ∧
      countAnimate node1.classList = 1) ∧
    (∃ node2,
      (timerFire (useAnimationEffect exFade
        (useAnimationEffect exFade exMounted))).element = some node2 ∧
      (timerFire (useAnimationEffect exFade
        (useAnimationEffect exFade exMounted))).pendingTimer = none ∧
      countAnimate node2.classList = 1)) :=
  ⟨⟨by decide, by decide⟩,
    c1_settled_bind_exactly_one_class exFade exMounted emptyElement
      (by decide) (by decide)⟩

/-- C7: the claim says a bounce bind sets the custom property `distance` to
the absolute value of the configured distance, but the V2 driver's bounce
branch interpolates the SIGNED distance
(`node.style.setProperty("--distance", `${distance}px`)`): at
`{type: bounce, distance: -100}` the element ends up with
`--distance = "-100px"`, while the slide branch of the same effect, the
published build and the keyframe contract all use the absolute value
(`"100px"`). -/
theorem c7_bounce_distance_signed :
    ((useAnimationEffect (resolve { type := .bounce, distance := some (-100) })
        exMounted).element.map
      (fun n => getProperty n.styleProps "--distance")) = some (some "-100px") ∧
    ratToString (jsAbs (-100)) ++ "px" = "100px" := by decide

/-- C8: the claim says resolution falls back to the documented default when
the opacity input is NaN, but the V2 driver's `validateOpacity` lets NaN
through `typeof NaN === "number"` and `Math.max(0, Math.min(1, NaN))`
evaluates to NaN: at `opacity = {start: NaN}` the resolved opacity start is
NaN — not the default `0`, and not a value in `[0,1]` — contradicting the
function's own doc comment ("returns a valid opacity value (0-1)"). -/
theorem c8_resolve_opacity_nan :
    validateOpacity (some JSNum.nan) DEFAULTS_opacityStart = JSNum.nan ∧
    (resolve { type := .fade, opacity := some { start := some JSNum.nan } }).opacityStart = JSNum.nan ∧
    JSNum.nan ≠ JSNum.num DEFAULTS_opacityStart ∧
    (∀ q : ℚ, JSNum.nan = JSNum.num q → 0 ≤ q ∧ q ≤ 1 → False) := by
  refine ⟨by decide, by decide, by decide, ?_⟩
  intro q hq
  cases hq

/-- C9: for slide and bounce configurations with distance exactly 0, or with
distance omitted, the derived directional class carries the `positive`
suffix: the direction test is `distance >= 0`, and the omitted distance
defaults to 50 which is also nonnegative. -/
theorem c9_zero_distance_positive (a : SlideAxis) (d : Option ℚ)
    (hd : d = some 0 ∨ d = none) :
    classBasedAnimationClass
        (resolve { type := .slide, distance := d, axis := some a }) =
      "animate-slide-" ++ axisStr a ++ "-positive" ∧
    classBasedAnimationClass (resolve { type := .bounce, distance := d }) =
      "animate-bounce-positive" := by
  rcases hd with hd | hd <;> subst hd <;> cases a <;>
    exact ⟨by decide, by decide⟩

/-- C9 witness: the zero-distance slide on the x axis and the zero-distance
bounce, evaluated. -/
theorem c9_zero_distance_positive_witness :
    ((some (0:ℚ) = some 0 ∨ (some (0:ℚ)) = none) ∧
      classBasedAnimationClass
          (resolve { type := .slide, distance := some 0, axis := some SlideAxis.x }) =
        "animate-slide-" ++ axisStr SlideAxis.x ++ "-positive" ∧
      classBasedAnimationClass
          (resolve { type := .bounce, distance := some 0 }) =
        "animate-bounce-positive") :=
  ⟨Or.inl rfl, c9_zero_distance_positive SlideAxis.x (some 0) (Or.inl rfl)⟩

/-- C3: when `animateOnMount` is false, the very first bind of a rotate
configuration under the Mount driver applies the end state instantly: the
end transform is written directly, no `animate-` class is present, no
activation is scheduled and no completion listener is attached (so no
completion callback can fire for that bind), and the next bind (the
subsequent generation) schedules a normal animation. -/
theorem c3_no_animate_on_mount (s : DriverState) (node : Element)
    (d : Option Degrees) (hel : s.element = some node)
    (hinit : s.isInitialRender = true) :
    (∃ node1,
      (useAnimationEffectMount (mountRotateCfg d) s).element = some node1 ∧
      node1.styleTransform =
        "rotate(" ++ ratToString (rotateEndDegMount d) ++ "deg)" ∧
      countAnimate node1.classList = 0) ∧
    (useAnimationEffectMount (mountRotateCfg d) s).pendingTimer = none ∧
    (useAnimationEffectMount (mountRotateCfg d) s).listener = none ∧
    (∀ b, (animationEndEvent b
        (useAnimationEffectMount (mountRotateCfg d) s)).fired =
      (useAnimationEffectMount (mountRotateCfg d) s).fired) ∧
    (useAnimationEffectMount (mountRotateCfg d) s).fired = s.fired ∧
    (useAnimationEffectMount (mountRotateCfg d) s).isInitialRender = false ∧
    (useAnimationEffectMount (mountRotateCfg d)
      (useAnimationEffectMount (mountRotateCfg d) s)).pendingTimer ≠ none := by
  rw [useAnimationEffectMount_rotate_skip _ s node hel rfl ⟨hinit, rfl⟩]
  refine ⟨⟨_, rfl, rfl, countAnimate_removeAnimateClasses _⟩, rfl, rfl,
    fun b => ?_, rfl, rfl, ?_⟩
  · simp only [animationEndEvent]
  · rw [useAnimationEffectMount_rotate_animate _ _ _ rfl rfl (by simp)]
    simp

/-- C3 witness: the first bind of the scenario rotate configuration on a
freshly mounted element. -/
theorem c3_no_animate_on_mount_witness :
    (exMounted.element = some emptyElement ∧
      exMounted.isInitialRender = true) ∧
    ((∃ node1,
      (useAnimationEffectMount (mountRotateCfg exPair45to225)
        exMounted).element = some node1 ∧
      node1.styleTransform =
        "rotate(" ++ ratToString (rotateEndDegMount exPair45to225) ++ "deg)" ∧
      countAnimate node1.classList = 0) ∧
    (useAnimationEffectMount (mountRotateCfg exPair45to225)
      exMounted).pendingTimer = none ∧
    (useAnimationEffectMount (mountRotateCfg exPair45to225)
      exMounted).listener = none ∧
    (∀ b, (animationEndEvent b (useAnimationEffectMount
        (mountRotateCfg exPair45to225) exMounted)).fired =
      (useAnimationEffectMount (mountRotateCfg exPair45to225)
        exMounted).fired) ∧
    (useAnimationEffectMount (mountRotateCfg exPair45to225)
      exMounted).fired = exMounted.fired ∧
    (useAnimationEffectMount (mountRotateCfg exPair45to225)
      exMounted).isInitialRender = false ∧
    (useAnimationEffectMount (mountRotateCfg exPair45to225)
      (useAnimationEffectMount (mountRotateCfg exPair45to225)
        exMounted)).pendingTimer ≠ none) :=
  ⟨⟨rfl, rfl⟩,
    c3_no_animate_on_mount exMounted emptyElement exPair45to225 rfl rfl⟩

/-- C4: the replay `key` (the generation) starts at 0; calling `replay` N
times advances it by exactly N; every driver operation either preserves the
generation or is a replay advancing it by exactly 1, so it strictly increases
across replays and is never decremented or reset; and, with an element bound
and a class-deriving configuration, a replay strips the animation class (zero
`animate-` classes remain right after it) and the effect/timer cycle it
triggers adds it back (exactly one afterwards). -/
theorem c4_replay_monotonic (N : ℕ) (cfg : ResolvedConfig) (s : DriverState)
    (node : Element) (hel : s.element = some node)
    (ht : cfg.type ≠ AnimationType.rotate) :
    initialState.key = 0 ∧
    (∀ s2 : DriverState, (replay^[N] s2).key = s2.key + N) ∧
    (∀ s2 s3 : DriverState, DriverStep s2 s3 →
      s3.key = s2.key ∨ s3.key = s2.key + 1) ∧
    (∀ s2 s3 : DriverState, DriverStep s2 s3 → s2.key ≤ s3.key) ∧
    (∀ s2 : DriverState, (replay s2).key = s2.key + 1) ∧
    (∃ node1, (replay s).element = some node1 ∧
      countAnimate node1.classList = 0) ∧
    (∃ node2, (timerFire (useAnimationEffect cfg (replay s))).element
        = some node2 ∧
      classBasedAnimationClass cfg ∈ node2.classList ∧
      countAnimate node2.classList = 1) := by
  refine ⟨rfl, ?_, step_key, fun s2 s3 h => ?_, replay_key, ?_, ?_⟩
  · intro s2
    induction N with
    | zero => simp
    | succ n ih =>
      rw [Function.iterate_succ_apply', replay_key, ih]
      omega
  · rcases step_key s2 s3 h with h2 | h2 <;> omega
  · rw [replay_some s node hel]
    exact ⟨_, rfl, countAnimate_removeAnimateClasses _⟩
  · obtain ⟨node2, h1, h2, h3, h4, _⟩ :=
      bindFire_one_class cfg (replay s) _ (by rw [replay_some s node hel]) ht
    exact ⟨node2, h1, h4, h3⟩

/-- C4 witness: two replays of a fade bind on a mounted element. -/
theorem c4_replay_monotonic_witness :
    (exMounted.element = some emptyElement ∧
      exFade.type ≠ AnimationType.rotate) ∧
    (initialState.key = 0 ∧
    (∀ s2 : DriverState, (replay^[2] s2).key = s2.key + 2) ∧
    (∀ s2 s3 : DriverState, DriverStep s2 s3 →
      s3.key = s2.key ∨ s3.key = s2.key + 1) ∧
    (∀ s2 s3 : DriverState, DriverStep s2 s3 → s2.key ≤ s3.key) ∧
    (∀ s2 : DriverState, (replay s2).key = s2.key + 1) ∧
    (∃ node1, (replay exMounted).element = some node1 ∧
      countAnimate node1.classList = 0) ∧
    (∃ node2, (timerFire (useAnimationEffect exFade
        (replay exMounted))).element = some node2 ∧
      classBasedAnimationClass exFade ∈ node2.classList ∧
      countAnimate node2.classList = 1)) :=
  ⟨⟨rfl, by decide⟩,
    c4_replay_monotonic 2 exFade exMounted emptyElement rfl (by decide)⟩

/-- C10: calling `replay` with no element bound is not an error and still
advances the generation by exactly 1 — the DOM-clearing steps are skipped
(the stored element, pending timer, listener and fired record are untouched)
— and a later bind on a live element schedules a full fresh animation cycle
whose activation leaves exactly one animation class. -/
theorem c10_replay_unbound (s : DriverState) (cfg : ResolvedConfig)
    (node : Element) (hel : s.element = none)
    (ht : cfg.type ≠ AnimationType.rotate) :
    (replay s).key = s.key + 1 ∧
    (replay s).element = none ∧
    (replay s).pendingTimer = s.pendingTimer ∧
    (replay s).listener = s.listener ∧
    (replay s).fired = s.fired ∧
    (∀ s2 : DriverState, s2.element = some node →
      (useAnimationEffect cfg s2).pendingTimer ≠ none ∧
      ∃ node2, (timerFire (useAnimationEffect cfg s2)).element = some node2 ∧
        countAnimate node2.classList = 1) := by
  rw [replay_none s hel]
  refine ⟨rfl, hel, rfl, rfl, rfl, fun s2 hel2 => ⟨?_, ?_⟩⟩
  · rw [useAnimationEffect_classBased cfg s2 node hel2 ht]
    simp
  · obtain ⟨node2, h1, _, h3, _, _⟩ := bindFire_one_class cfg s2 node hel2 ht
    exact ⟨node2, h1, h3⟩

/-- C10 witness: a replay on the fresh (unbound) driver state, followed by a
fade bind on a mounted element. -/
theorem c10_replay_unbound_witness :
    (initialState.element = none ∧ exFade.type ≠ AnimationType.rotate) ∧
    ((replay initialState).key = initialState.key + 1 ∧
    (replay initialState).element = none ∧
    (replay initialState).pendingTimer = initialState.pendingTimer ∧
    (replay initialState).listener = initialState.listener ∧
    (replay initialState).fired = initialState.fired ∧
    (∀ s2 : DriverState, s2.element = some emptyElement →
      (useAnimationEffect exFade s2).pendingTimer ≠ none ∧
      ∃ node2, (timerFire (useAnimationEffect exFade s2)).element
          = some node2 ∧
        countAnimate node2.classList = 1)) :=
  ⟨⟨rfl, by decide⟩,
    c10_replay_unbound initialState exFade emptyElement rfl (by decide)⟩

/-- C5: in every reachable driver state, a pending activation task and an
attached completion listener always belong to the latest bind cycle, so no
deferred task or completion listener of a superseded bind cycle can ever be
the one that fires; unbinding (the effect cleanup) cancels both; a new bind
cycle supersedes the old one (the cycle counter advances, and any task it
schedules carries the new cycle); and any completion callback that fires in
one step belongs to the cycle that was current at that step. -/
theorem c5_no_stale_callbacks (s : DriverState) (h : Reachable s) :
    (∀ t, s.pendingTimer = some t → t.cycle = s.cycle) ∧
    (∀ n, s.listener = some n → n = s.cycle) ∧
    (cleanupEffect s).pendingTimer = none ∧
    (cleanupEffect s).listener = none ∧
    (∀ cfg node, s.element = some node →
      (useAnimationEffect cfg s).cycle = s.cycle + 1 ∧
      (∀ t, (useAnimationEffect cfg s).pendingTimer = some t →
        t.cycle = s.cycle + 1)) ∧
    (∀ s2, DriverStep s s2 → ∀ n ∈ s2.fired, n ∈ s.fired ∨ n = s.cycle) := by
  have hinv := cycleInv_reachable s h
  refine ⟨hinv.1, hinv.2, rfl, rfl, fun cfg node hel => ?_,
    fun s2 hstep => fired_step s s2 hstep hinv⟩
  by_cases ht : cfg.type = AnimationType.rotate
  · rw [useAnimationEffect_rotate cfg s node hel ht]
    exact ⟨rfl, fun t htt => by simp at htt⟩
  · rw [useAnimationEffect_classBased cfg s node hel ht]
    refine ⟨rfl, fun t htt => ?_⟩
    simp at htt
    rw [← htt]

/-- C5 witness: the fresh driver state is reachable and satisfies the
stale-work guarantees. -/
theorem c5_no_stale_callbacks_witness :
    Reachable initialState ∧
    ((∀ t, initialState.pendingTimer = some t → t.cycle = initialState.cycle) ∧
    (∀ n, initialState.listener = some n → n = initialState.cycle) ∧
    (cleanupEffect initialState).pendingTimer = none ∧
    (cleanupEffect initialState).listener = none ∧
    (∀ cfg node, initialState.element = some node →
      (useAnimationEffect cfg initialState).cycle = initialState.cycle + 1 ∧
      (∀ t, (useAnimationEffect cfg initialState).pendingTimer = some t →
        t.cycle = initialState.cycle + 1)) ∧
    (∀ s2, DriverStep initialState s2 → ∀ n ∈ s2.fired,
      n ∈ initialState.fired ∨ n = initialState.cycle)) :=
  ⟨Relation.ReflTransGen.refl,
    c5_no_stale_callbacks initialState Relation.ReflTransGen.refl⟩

/-- C6: for the configuration `{kind: slide, distance: -100, axis: "x"}`, a
settled bind derives exactly the class `animate-slide-x-negative` and sets
the custom property `--distance` to "100px"; in general every class the V2
driver derives for fade/slide/scale/bounce matches the directional-class
table of the spec exactly, and the rotate class the Mount driver schedules
(chaining from `degreesStart` when no rendered rotation is readable) matches
the table's `sign(end − effectiveStart)` row. -/
theorem c6_directional_class_table (rc : ResolvedConfig) (s : DriverState)
    (node : Element) (hel : s.element = some node)
    (ht : rc.type ≠ AnimationType.rotate)
    (rcR : ResolvedConfig) (sR : DriverState) (nodeR : Element)
    (htR : rcR.type = AnimationType.rotate) (helR : sR.element = some nodeR)
    (hrotR : nodeR.computedRotation = none)
    (hgoR : ¬(sR.isInitialRender = true ∧ rcR.animateOnMount = false)) :
    (∃ node1,
      (timerFire (useAnimationEffect exSlideNeg s)).element = some node1 ∧
      "animate-slide-x-negative" ∈ node1.classList ∧
      countAnimate node1.classList = 1 ∧
      getProperty node1.styleProps "--distance" = some "100px") ∧
    classBasedAnimationClass rc = specDirectionalClass rc ∧
    (∀ t, (useAnimationEffectMount rcR sR).pendingTimer = some t →
      t.animClass = specDirectionalClass rcR) := by
  refine ⟨?_, ?_, ?_⟩
  · obtain ⟨node1, h1, _, h3, h4, h5⟩ :=
      bindFire_one_class exSlideNeg s node hel (by decide)
    have hcls : classBasedAnimationClass exSlideNeg
        = "animate-slide-x-negative" := by decide
    rw [hcls] at h4
    refine ⟨node1, h1, h4, h3, ?_⟩
    rw [h5]
    have e1 : setKindPropsV2 exSlideNeg (setTimingProps exSlideNeg node.styleProps)
        = setProperty (setProperty
            (setProperty (setTimingProps exSlideNeg node.styleProps)
              "--distance" (ratToString (jsAbs exSlideNeg.distance) ++ "px"))
            "--opacity-start" (jsNumToString exSlideNeg.opacityStart))
          "--opacity-end" (jsNumToString exSlideNeg.opacityEnd) := rfl
    rw [e1, getProperty_setProperty_other _ _ _ _ (by decide),
        getProperty_setProperty_other _ _ _ _ (by decide),
        getProperty_setProperty_same]
    decide
  · obtain ⟨t, du, de, ea, dist, dg, sc, os, oe, ax, am, hc⟩ := rc
    cases t
    case rotate => exact absurd rfl ht
    all_goals rfl
  · obtain ⟨tR, duR, deR, eaR, distR, dgR, scR, osR, oeR, axR, amR, hcR⟩ := rcR
    dsimp at htR
    subst htR
    intro t htt
    rw [useAnimationEffectMount_rotate_animate _ sR nodeR helR rfl hgoR] at htt
    simp at htt
    rw [← htt, hrotR]
    dsimp [specDirectionalClass, Option.getD]
    split_ifs with h1 h2 h2
    · exfalso; linarith
    · rfl
    · rfl
    · exfalso; push_neg at h1; linarith

/-- C6 witness: the slide scenario on a mounted element, a non-rotate
configuration, and a rotate configuration past its initial render. -/
theorem c6_directional_class_table_witness :
    (exMounted.element = some emptyElement ∧
      exFade.type ≠ AnimationType.rotate ∧
      exRotatePair.type = AnimationType.rotate ∧
      exSettledMount.element = some emptyElement ∧
      emptyElement.computedRotation = none ∧
      ¬(exSettledMount.isInitialRender = true ∧
        exRotatePair.animateOnMount = false)) ∧
    ((∃ node1,
      (timerFire (useAnimationEffect exSlideNeg exMounted)).element
        = some node1 ∧
      "animate-slide-x-negative" ∈ node1.classList ∧
      countAnimate node1.classList = 1 ∧
      getProperty node1.styleProps "--distance" = some "100px") ∧
    classBasedAnimationClass exFade = specDirectionalClass exFade ∧
    (∀ t, (useAnimationEffectMount exRotatePair exSettledMount).pendingTimer
        = some t →
      t.animClass = specDirectionalClass exRotatePair)) :=
  ⟨⟨rfl, by decide, by decide, rfl, rfl, by decide⟩,
    c6_directional_class_table exFade exMounted emptyElement rfl (by decide)
      exRotatePair exSettledMount emptyElement (by decide) rfl rfl (by decide)⟩

end AnimationLib
